import Mathlib

/-!
Shallow embedding of the BearCart analytics repository.

Part 1 embeds the Python metrics engine of
src/BearCart_Code_Templates.md (classes BearCartDataCleaner and
BearCartMetrics).  Pandas/numpy numeric cells are modelled as rational
numbers; a missing cell (NaN / NaT, or a value that to_numeric or
to_datetime coerced to missing) is modelled as Option.  Numpy true
division never raises: dividing by zero yields inf, -inf or nan, which
the inductive type NpVal captures.  Dates are modelled as integer
timestamps.

Part 2 embeds the TypeScript dashboard
(src/FILE: src/components/BearCartDashboard/BearCartDashboard.tsx) and
the fetch service ApiService.getDashboardData (src/unnamed/part_000).
JavaScript number formatting with toFixed is modelled as exact decimal
rounding on rationals; the fetch and JSON.parse effects are modelled by
explicit outcome values passed in as parameters.
-/

namespace BearCart

/-- Result of a numpy true division: a finite rational, or one of the
non-exceptional sentinels numpy produces on division by zero. -/
inductive NpVal where
  | fin (q : ℚ)
  | posInf
  | negInf
  | nan
deriving DecidableEq, Repr

/-- Numpy scalar true division: for b ≠ 0 it is exact division; for
b = 0 it warns and returns inf, -inf or nan depending on the sign of
the numerator, never raising an exception. -/
def npdiv (a b : ℚ) : NpVal :=
  if b ≠ 0 then .fin (a / b)
  else if 0 < a then .posInf
  else if a < 0 then .negInf
  else .nan

/-- Row of the sessions table as consumed by
BearCartMetrics.traffic_metrics.  Only the columns that function
groups or counts are carried; a none entry models a missing (NaN)
cell, which pandas value_counts excludes from its counts. -/
structure SessionRow where
  traffic_source : Option String
  device_type : Option String
deriving DecidableEq, Repr

/-- Pandas Series.value_counts with its default dropna=True: one entry
per distinct non-missing value, paired with the number of occurrences. -/
def value_counts (l : List (Option String)) : List (String × ℕ) :=
  let xs := l.filterMap id
  xs.dedup.map fun k => (k, xs.count k)

/-- Fields of the dict returned by BearCartMetrics.traffic_metrics that
the verified claims mention (total_sessions, sessions_by_channel,
sessions_by_device). -/
structure TrafficMetrics where
  total_sessions : ℕ
  sessions_by_channel : List (String × ℕ)
  sessions_by_device : List (String × ℕ)
deriving DecidableEq, Repr

/-- BearCartMetrics.traffic_metrics: total_sessions is len(df_sessions);
the two breakdowns are value_counts of traffic_source and device_type. -/
def traffic_metrics (df_sessions : List SessionRow) : TrafficMetrics :=
  { total_sessions := df_sessions.length
    sessions_by_channel := value_counts (df_sessions.map (·.traffic_source))
    sessions_by_device := value_counts (df_sessions.map (·.device_type)) }

/-- Row of the master dataset built by create_master_dataset, restricted
to the numeric columns conversion_metrics and quality_metrics read.
After the fillna(0) steps of create_master_dataset these columns hold
plain numbers, so they are plain rationals here. -/
structure MasterRow where
  conversion_flag : ℚ
  orders_in_session : ℚ
  was_refunded : ℚ
deriving DecidableEq, Repr

/-- Fields of the dict returned by BearCartMetrics.conversion_metrics
that the verified claims mention. -/
structure ConversionMetrics where
  overall_conversion_rate : NpVal
deriving DecidableEq, Repr

/-- BearCartMetrics.conversion_metrics: overall_conversion_rate is
converted / total_sessions where converted is the numpy sum of the
conversion_flag column and total_sessions is len(df_master); being a
numpy scalar division it yields a sentinel, not an exception, when
total_sessions is zero. -/
def conversion_metrics (df_master : List MasterRow) : ConversionMetrics :=
  let total_sessions : ℚ := df_master.length
  let converted : ℚ := (df_master.map (·.conversion_flag)).sum
  { overall_conversion_rate := npdiv converted total_sessions }

/-- Fields of the dict returned by BearCartMetrics.quality_metrics that
the verified claims mention. -/
structure QualityMetrics where
  overall_refund_rate : NpVal
deriving DecidableEq, Repr

/-- BearCartMetrics.quality_metrics: overall_refund_rate is
refunded_orders / total_orders if total_orders > 0 else 0, with
total_orders the sum of orders_in_session and refunded_orders the sum
of was_refunded over the master table. -/
def quality_metrics (df_master : List MasterRow) : QualityMetrics :=
  let total_orders : ℚ := (df_master.map (·.orders_in_session)).sum
  let refunded_orders : ℚ := (df_master.map (·.was_refunded)).sum
  { overall_refund_rate :=
      if 0 < total_orders then npdiv refunded_orders total_orders
      else .fin 0 }

/-! Cleaning pipeline (BearCartDataCleaner).  Dates are integer
timestamps; a none date models NaT (a cell that to_datetime with
errors coerce turned missing).  Pandas comparisons against a missing
value are False, which the opt comparison helpers reproduce. -/

/-- Pandas elementwise strict less-than between two possibly missing
dates: False whenever either side is missing. -/
def optLt (a b : Option ℤ) : Bool :=
  match a, b with
  | some x, some y => decide (x < y)
  | _, _ => false

/-- Pandas elementwise greater-or-equal between a date and a possibly
missing date: False whenever the right side is missing. -/
def optGe (x : ℤ) (d : Option ℤ) : Bool :=
  match d with
  | some y => decide (y ≤ x)
  | none => false

/-- Row of the raw orders table as consumed by clean_orders.  order_id
and order_value may be missing; order_value holds the result of
to_numeric with errors coerce (none for a non-numeric cell), and
order_date the result of to_datetime with errors coerce. -/
structure OrderRow where
  order_id : Option String
  session_id : String
  order_date : Option ℤ
  order_value : Option ℚ
deriving DecidableEq, Repr

/-- Session key row used by the merge inside clean_orders: session_id
with its (possibly missing) session_date.  clean_sessions deduplicates
session_id beforehand, so the left merge is a first-match lookup. -/
structure SessionKeyRow where
  session_id : String
  session_date : Option ℤ
deriving DecidableEq, Repr

/-- Left-merge lookup of a session_date for one order: the session_date
of the first session with the same session_id, none when no session
matches. -/
def lookupSessionDate (df_sessions : List SessionKeyRow) (sid : String) : Option ℤ :=
  (df_sessions.find? (fun s => s.session_id = sid)).bind (·.session_date)

/-- Output of clean_orders: the cleaned rows plus the two counters the
function logs and stores in its cleaning report. -/
structure CleanOrdersResult where
  rows : List OrderRow
  invalid_dates : ℕ
  negative_orders : ℕ
deriving DecidableEq, Repr

/-- BearCartDataCleaner.clean_orders: drop rows with a missing
order_id, drop rows whose order_date is strictly before the
session_date of their session (a comparison against a missing date is
False, so such rows are kept at this step), count the rows whose
order_value is negative, then keep exactly the rows with
order_value > 0 (a missing order_value fails that filter). -/
def clean_orders (df_orders : List OrderRow) (df_sessions : List SessionKeyRow) :
    CleanOrdersResult :=
  let step1 := df_orders.filter (fun o => o.order_id.isSome)
  let invalid := fun o => optLt o.order_date (lookupSessionDate df_sessions o.session_id)
  let invalid_dates := (step1.filter invalid).length
  let step2 := step1.filter (fun o => !invalid o)
  let negative_orders :=
    (step2.filter (fun o => match o.order_value with
      | some v => decide (v < 0)
      | none => false)).length
  let step3 := step2.filter (fun o => match o.order_value with
    | some v => decide (0 < v)
    | none => false)
  { rows := step3, invalid_dates := invalid_dates, negative_orders := negative_orders }

/-- Row of the raw refunds table as consumed by clean_refunds.
refund_date is parsed by to_datetime without coercion, so a row that
reaches the merge carries a real timestamp; order_id may be missing,
and a missing key matches no order in a pandas merge. -/
structure RefundRow where
  refund_id : String
  order_id : Option String
  refund_date : ℤ
deriving DecidableEq, Repr

/-- Row of the refunds table after the left merge with the orders
table inside clean_refunds: the refund columns plus the order_date
column brought in from the matching order (none when no order
matched or the matching order has a missing date). -/
structure MergedRefundRow where
  refund : RefundRow
  order_date : Option ℤ
deriving DecidableEq, Repr

/-- Pandas key equality for the merge on order_id: missing keys match
nothing. -/
def keyMatches (a b : Option String) : Bool :=
  match a, b with
  | some x, some y => decide (x = y)
  | _, _ => false

/-- Pandas left merge of the refunds table with the order_date column
of the orders table on order_id: one output row per matching order,
and a single row with a missing order_date when no order matches. -/
def mergeRefundsOrders (df_refunds : List RefundRow) (df_orders : List OrderRow) :
    List MergedRefundRow :=
  df_refunds.flatMap fun r =>
    let ms := df_orders.filter (fun o => keyMatches r.order_id o.order_id)
    if ms.isEmpty then [{ refund := r, order_date := none }]
    else ms.map fun o => { refund := r, order_date := o.order_date }

/-- BearCartDataCleaner.clean_refunds: left-merge refunds with orders
on order_id, then keep exactly the merged rows with
refund_date >= order_date; a row whose order_date is missing (no
matching order) fails the comparison and is dropped. -/
def clean_refunds (df_refunds : List RefundRow) (df_orders : List OrderRow) :
    List MergedRefundRow :=
  (mergeRefundsOrders df_refunds df_orders).filter
    (fun m => optGe m.refund.refund_date m.order_date)

/-! Dashboard component (BearCartDashboard.tsx).  The generated
datasets used by the KPI computations are fixed literals in the
source; colours are presentation only and are omitted.  JavaScript
toFixed(n) is modelled as exact rounding to n decimal places on
rationals (half away from zero agrees with half up on the positive
values occurring here); binary floating point artifacts are
abstracted away. -/

/-- JavaScript Number.prototype.toFixed(n), modelled as exact decimal
rounding: the result is the rational with at most n decimal places
nearest to the input. -/
def toFixedQ (n : ℕ) (q : ℚ) : ℚ :=
  (round (q * 10 ^ n) : ℤ) / 10 ^ n

/-- Row of generateChannelData: name, revenue, orders and conversion
for one acquisition channel. -/
structure ChannelRow where
  name : String
  revenue : ℚ
  orders : ℚ
  conversion : ℚ
deriving DecidableEq, Repr

/-- generateChannelData: the five channel rows the dashboard KPIs are
computed from. -/
def generateChannelData : List ChannelRow :=
  [ { name := "Organic", revenue := 28450, orders := 342, conversion := 4.2 }
  , { name := "Paid Ads", revenue := 18920, orders := 156, conversion := 2.1 }
  , { name := "Social", revenue := 12340, orders := 98, conversion := 1.8 }
  , { name := "Direct", revenue := 8920, orders := 67, conversion := 1.2 }
  , { name := "Referral", revenue := 5670, orders := 42, conversion := 0.9 } ]

/-- Stage of generateFunnelData: stage label and count. -/
structure FunnelStage where
  stage : String
  value : ℚ
deriving DecidableEq, Repr, Inhabited

/-- generateFunnelData: the five funnel stages from Sessions down to
Purchase. -/
def generateFunnelData : List FunnelStage :=
  [ { stage := "Sessions", value := 45000 }
  , { stage := "Product View", value := 32400 }
  , { stage := "Add to Cart", value := 8100 }
  , { stage := "Checkout", value := 2430 }
  , { stage := "Purchase", value := 1215 } ]

/-- Row of generateRefundData: refund reason with its count and the
precomputed percentage shown in the refund chart. -/
structure RefundReasonRow where
  reason : String
  count : ℚ
  percentage : ℚ
deriving DecidableEq, Repr

/-- generateRefundData: the five refund reason rows. -/
def generateRefundData : List RefundReasonRow :=
  [ { reason := "Damaged", count := 45, percentage := 28 }
  , { reason := "Wrong Size", count := 38, percentage := 24 }
  , { reason := "Not as Described", count := 32, percentage := 20 }
  , { reason := "Changed Mind", count := 26, percentage := 16 }
  , { reason := "Defective", count := 18, percentage := 12 } ]

/-- Row of generateCategoryPerformance: category revenue, trend and
refund rate. -/
structure CategoryRow where
  category : String
  revenue : ℚ
  trend : ℚ
  refundRate : ℚ
deriving DecidableEq, Repr

/-- generateCategoryPerformance: the five category rows the category
filter acts on. -/
def generateCategoryPerformance : List CategoryRow :=
  [ { category := "Electronics", revenue := 34500, trend := 12, refundRate := 6.2 }
  , { category := "Apparel", revenue := 28900, trend := 8, refundRate := 3.5 }
  , { category := "Furniture", revenue := 18450, trend := -2, refundRate := 2.1 }
  , { category := "Accessories", revenue := 21240, trend := 15, refundRate := 1.8 }
  , { category := "Home Goods", revenue := 15600, trend := 5, refundRate := 2.8 } ]

/-- KPI totalRevenue: sum of revenue over channelData. -/
def totalRevenue : ℚ := (generateChannelData.map (·.revenue)).sum

/-- KPI totalOrders: sum of orders over channelData. -/
def totalOrders : ℚ := (generateChannelData.map (·.orders)).sum

/-- KPI avgConversion: mean of the channel conversion values, rendered
with toFixed(1). -/
def avgConversion : ℚ :=
  toFixedQ 1 ((generateChannelData.map (·.conversion)).sum / generateChannelData.length)

/-- totalSessions: value of the first funnel stage, funnelData[0]. -/
def totalSessions : ℚ := (generateFunnelData.headD default).value

/-- KPI conversionRate: value of the last funnel stage over
totalSessions, times 100, rendered with toFixed(2). -/
def conversionRate : ℚ :=
  toFixedQ 2 ((generateFunnelData.getLastD default).value / totalSessions * 100)

/-- KPI avgOrderValue: totalRevenue over totalOrders, rendered with
toFixed(2). -/
def avgOrderValue : ℚ := toFixedQ 2 (totalRevenue / totalOrders)

/-- KPI totalRefunds: sum of count over refundData. -/
def totalRefunds : ℚ := (generateRefundData.map (·.count)).sum

/-- KPI refundRate: totalRefunds over totalOrders, times 100, rendered
with toFixed(1). -/
def refundRate : ℚ := toFixedQ 1 (totalRefunds / totalOrders * 100)

/-- Value of funnel stage i, funnelData[i].value (0 past the end,
matching an out-of-range access only through total functions; every
use below is guarded by the index bound). -/
def funnelValue (i : ℕ) : ℚ := ((generateFunnelData.getD i default).value)

/-- Stage Analysis percentage for stage i:
stage.value / funnelData[0].value times 100, rendered with toFixed(1). -/
def stagePercentage (i : ℕ) : ℚ :=
  toFixedQ 1 (funnelValue i / funnelValue 0 * 100)

/-- Stage Analysis dropoff for stage i: with prevValue the value of
the previous stage for i > 0 and the stage itself for i = 0,
(prevValue - stage.value) / prevValue times 100, rendered with
toFixed(1). -/
def stageDropoff (i : ℕ) : ℚ :=
  let prevValue := if 0 < i then funnelValue (i - 1) else funnelValue i
  toFixedQ 1 ((prevValue - funnelValue i) / prevValue * 100)

/-- Filter state of the dashboard component: the selectedChannel and
selectedCategory useState values. -/
structure DashState where
  selectedChannel : Option String
  selectedCategory : Option String
deriving DecidableEq, Repr

/-- Everything the component derives per render that the verified
claims mention: the eight KPI consts and the two filtered datasets. -/
structure DashboardView where
  totalRevenue : ℚ
  totalOrders : ℚ
  avgConversion : ℚ
  conversionRate : ℚ
  avgOrderValue : ℚ
  totalRefunds : ℚ
  refundRate : ℚ
  filteredChannelData : List ChannelRow
  filteredCategoryData : List CategoryRow
deriving DecidableEq, Repr

/-- Render-time computation of BearCartDashboard: the KPI consts read
only the generated datasets, while filteredChannelData and
filteredCategoryData select on the respective filter state (the
ternary selectedChannel ? channelData.filter(...) : channelData and
its category counterpart). -/
def renderDashboard (s : DashState) : DashboardView :=
  { totalRevenue := totalRevenue
    totalOrders := totalOrders
    avgConversion := avgConversion
    conversionRate := conversionRate
    avgOrderValue := avgOrderValue
    totalRefunds := totalRefunds
    refundRate := refundRate
    filteredChannelData :=
      match s.selectedChannel with
      | some c => generateChannelData.filter (fun item => item.name = c)
      | none => generateChannelData
    filteredCategoryData :=
      match s.selectedCategory with
      | some c => generateCategoryPerformance.filter (fun item => item.category = c)
      | none => generateCategoryPerformance }

/-! Fetch service (class ApiService, src/unnamed/part_000).  The
single awaited fetch is modelled by an explicit outcome parameter: a
rejected promise is an error carrying the message, a resolved one is
a Response whose body text is already available.  JSON.parse and the
json() body parse are opaque functions passed in as parameters (none
models a parse that throws); the dashboard payload type is a type
parameter since getDashboardData never inspects it.  The trace
records the value returned or the error re-thrown, the number of
fetch calls issued, and the console.error log lines. -/

/-- Resolved value of the awaited fetch: the ok flag, the HTTP status
and the body text that response.text() or response.json() would read. -/
structure Response where
  ok : Bool
  status : ℕ
  body : String
deriving DecidableEq, Repr

/-- Observable outcome of one call to ApiService.getDashboardData. -/
structure ApiTrace (D : Type) where
  result : Except String D
  fetchCalls : ℕ
  logged : List String
deriving Repr

/-- JavaScript truthiness fallback a || b for a possibly undefined
string: b when a is undefined or the empty string. -/
def jsOrElse (a : Option String) (b : String) : String :=
  match a with
  | some v => if v = "" then b else v
  | none => b

/-- ApiService.getDashboardData.  The outer try awaits one fetch; on a
non-ok response it reads the body text and, in an inner try, parses it
as JSON and throws an Error built from json.detail with the generic
status message as fallback — but that throw is itself caught by the
inner catch, which throws the generic status message instead, as does
a JSON.parse failure.  On an ok response it returns the parsed json
body (a parse failure there throws).  The outer catch logs the error
and re-throws it unchanged.  Exactly one fetch call is issued on every
path. -/
def getDashboardData {J D : Type} (parseJson : String → Option J)
    (detail : J → Option String) (parseData : String → Option D)
    (fetchOutcome : Except String Response) : ApiTrace D :=
  let tryBlock : Except String D :=
    match fetchOutcome with
    | .error e => .error e
    | .ok response =>
      if !response.ok then
        let text := response.body
        let generic := "HTTP error! status: " ++ toString response.status
        let innerTry : Except String D :=
          match parseJson text with
          | none => .error "SyntaxError: Unexpected token in JSON"
          | some json => .error (jsOrElse (detail json) generic)
        match innerTry with
        | .error _ => .error generic
        | .ok v => .ok v
      else
        match parseData response.body with
        | some d => .ok d
        | none => .error "SyntaxError: Unexpected end of JSON input"
  match tryBlock with
  | .ok d => { result := .ok d, fetchCalls := 1, logged := [] }
  | .error e =>
      { result := .error e
        fetchCalls := 1
        logged := ["Failed to fetch dashboard data: " ++ e] }

/-! Theorems settling the claims. -/

/-- C4: funnel stage values are non-increasing along the stage
sequence produced by generateFunnelData: for every pair of
consecutive stages (Sessions, Product View, Add to Cart, Checkout,
Purchase), the later value is at most the earlier value. -/
theorem spec_C4_funnel_nonincreasing :
    List.Chain' (fun a b => b.value ≤ a.value) generateFunnelData := by
  simp only [generateFunnelData, List.chain'_cons, List.chain'_singleton]
  norm_num

/-- C1: the rate of an empty group is a defined sentinel, never an
exception (both metric functions are total by construction):
quality_metrics returns the finite value 0 for overall_refund_rate
when total_orders is 0, and conversion_metrics on a master table with
zero sessions returns the defined sentinel nan for
overall_conversion_rate. -/
theorem spec_C1_empty_group_sentinel (rows : List MasterRow) :
    ((rows.map (·.orders_in_session)).sum = 0 →
      (quality_metrics rows).overall_refund_rate = NpVal.fin 0) ∧
    (rows.length = 0 →
      (conversion_metrics rows).overall_conversion_rate = NpVal.nan) := by
  constructor
  · intro h
    simp [quality_metrics, h]
  · intro h
    rw [List.length_eq_zero] at h
    subst h
    simp [conversion_metrics, npdiv]

/-- Witness for C1 at the empty master table. -/
theorem spec_C1_witness :
    ((([] : List MasterRow).map (·.orders_in_session)).sum = 0 ∧
      (quality_metrics []).overall_refund_rate = NpVal.fin 0) ∧
    (([] : List MasterRow).length = 0 ∧
      (conversion_metrics []).overall_conversion_rate = NpVal.nan) :=
  ⟨⟨by decide, (spec_C1_empty_group_sentinel []).1 (by decide)⟩,
   ⟨rfl, (spec_C1_empty_group_sentinel []).2 rfl⟩⟩

/-- C8: for every non-ok HTTP response, getDashboardData rejects with
exactly the generic message built from the status; the branch that
would surface json.detail is unreachable because the Error it throws
inside the inner try is caught by the enclosing catch and replaced by
the generic status message, whatever JSON.parse and the detail field
do. -/
theorem spec_C8_generic_http_error {J D : Type} (parseJson : String → Option J)
    (detail : J → Option String) (parseData : String → Option D)
    (r : Response) (h : r.ok = false) :
    (getDashboardData parseJson detail parseData (.ok r)).result =
      Except.error ("HTTP error! status: " ++ toString r.status) := by
  unfold getDashboardData
  cases hp : parseJson r.body <;> simp [h, hp]

/-- Witness for C8: a 500 response whose body parses and carries a
detail message still surfaces only the generic status message. -/
theorem spec_C8_witness :
    (@getDashboardData String Unit (fun s => some s) (fun _ => some "boom")
      (fun _ => none) (.ok ⟨false, 500, "x"⟩)).result =
      Except.error ("HTTP error! status: " ++ toString (500 : ℕ)) :=
  spec_C8_generic_http_error _ _ _ _ rfl

/-- C2: getDashboardData issues exactly one fetch per invocation on
every path; when the fetch itself rejects, the error is logged once
and re-raised unchanged; when the response is non-ok, the call
rejects with an error message that is logged once — no retry and no
synthesized partial result. -/
theorem spec_C2_single_fetch_failure_surfaced {J D : Type}
    (parseJson : String → Option J) (detail : J → Option String)
    (parseData : String → Option D) (fetchOutcome : Except String Response) :
    (getDashboardData parseJson detail parseData fetchOutcome).fetchCalls = 1 ∧
    (∀ e, fetchOutcome = .error e →
      (getDashboardData parseJson detail parseData fetchOutcome).result =
        Except.error e ∧
      (getDashboardData parseJson detail parseData fetchOutcome).logged =
        ["Failed to fetch dashboard data: " ++ e]) ∧
    (∀ r, fetchOutcome = .ok r → r.ok = false →
      ∃ msg,
        (getDashboardData parseJson detail parseData fetchOutcome).result =
          Except.error msg ∧
        (getDashboardData parseJson detail parseData fetchOutcome).logged =
          ["Failed to fetch dashboard data: " ++ msg]) := by
  refine ⟨?_, ?_, ?_⟩
  · unfold getDashboardData
    rcases fetchOutcome with e | r
    · simp
    · by_cases h : r.ok <;> cases hp : parseJson r.body <;>
        cases hd : parseData r.body <;> simp [h, hp, hd]
  · intro e he
    subst he
    simp [getDashboardData]
  · intro r hr h
    subst hr
    refine ⟨"HTTP error! status: " ++ toString r.status, ?_, ?_⟩ <;>
      · unfold getDashboardData
        cases hp : parseJson r.body <;> simp [h, hp]

/-- Witness for C2: a rejected fetch is re-raised and logged, and a
non-ok response is surfaced, each with a single fetch call. -/
theorem spec_C2_witness :
    (@getDashboardData String Unit some (fun _ => none) (fun _ => none)
      (.error "network down")).fetchCalls = 1 ∧
    (@getDashboardData String Unit some (fun _ => none) (fun _ => none)
      (.error "network down")).result = Except.error "network down" ∧
    (∃ msg,
      (@getDashboardData String Unit some (fun _ => none) (fun _ => none)
        (.ok ⟨false, 404, ""⟩)).result = Except.error msg ∧
      (@getDashboardData String Unit some (fun _ => none) (fun _ => none)
        (.ok ⟨false, 404, ""⟩)).logged =
        ["Failed to fetch dashboard data: " ++ msg]) :=
  ⟨(spec_C2_single_fetch_failure_surfaced some (fun _ => none) (fun _ => none)
      (.error "network down")).1,
   ((spec_C2_single_fetch_failure_surfaced some (fun _ => none) (fun _ => none)
      (.error "network down")).2.1 "network down" rfl).1,
   (spec_C2_single_fetch_failure_surfaced some (fun _ => none) (fun _ => none)
      (.ok ⟨false, 404, ""⟩)).2.2 ⟨false, 404, ""⟩ rfl rfl⟩

/-- C9: the selectedChannel and selectedCategory filters change only
filteredChannelData and filteredCategoryData; every KPI value
(totalRevenue, totalOrders, avgConversion, conversionRate,
avgOrderValue, totalRefunds, refundRate) is computed from the
unfiltered generated datasets and is identical for every filter
selection, and each filtered dataset depends only on its own filter. -/
theorem spec_C9_filters_frame (s₁ s₂ : DashState) :
    (renderDashboard s₁).totalRevenue = (renderDashboard s₂).totalRevenue ∧
    (renderDashboard s₁).totalOrders = (renderDashboard s₂).totalOrders ∧
    (renderDashboard s₁).avgConversion = (renderDashboard s₂).avgConversion ∧
    (renderDashboard s₁).conversionRate = (renderDashboard s₂).conversionRate ∧
    (renderDashboard s₁).avgOrderValue = (renderDashboard s₂).avgOrderValue ∧
    (renderDashboard s₁).totalRefunds = (renderDashboard s₂).totalRefunds ∧
    (renderDashboard s₁).refundRate = (renderDashboard s₂).refundRate ∧
    (s₁.selectedChannel = s₂.selectedChannel →
      (renderDashboard s₁).filteredChannelData =
        (renderDashboard s₂).filteredChannelData) ∧
    (s₁.selectedCategory = s₂.selectedCategory →
      (renderDashboard s₁).filteredCategoryData =
        (renderDashboard s₂).filteredCategoryData) :=
  ⟨rfl, rfl, rfl, rfl, rfl, rfl, rfl,
   fun h => by simp only [renderDashboard, h],
   fun h => by simp only [renderDashboard, h]⟩

/-- Witness for C9: selecting the Organic channel and the Apparel
category leaves the totalRevenue KPI identical to the unfiltered
render, and leaves filteredChannelData untouched when only the
category selection differs. -/
theorem spec_C9_witness :
    (renderDashboard ⟨some "Organic", none⟩).totalRevenue =
      (renderDashboard ⟨none, none⟩).totalRevenue ∧
    (renderDashboard ⟨some "Organic", none⟩).filteredChannelData =
      (renderDashboard ⟨some "Organic", some "Apparel"⟩).filteredChannelData :=
  ⟨(spec_C9_filters_frame ⟨some "Organic", none⟩ ⟨none, none⟩).1,
   (spec_C9_filters_frame ⟨some "Organic", none⟩
      ⟨some "Organic", some "Apparel"⟩).2.2.2.2.2.2.2.1 rfl⟩

/-- C6: each of the four displayed percentages named by the claim is a
ratio times 100 rounded with toFixed — conversionRate (toFixed(2)),
refundRate (toFixed(1)), the Stage Analysis funnel stage percentage
and the stage drop-off (both toFixed(1)) — with the concrete rendered
values 2.70, 22.6 and, for every in-range stage index, the rounded
stage ratios. -/
theorem spec_C6_percentages :
    conversionRate = toFixedQ 2 (funnelValue 4 / funnelValue 0 * 100) ∧
    conversionRate = 27 / 10 ∧
    refundRate = toFixedQ 1 (totalRefunds / totalOrders * 100) ∧
    refundRate = 113 / 5 ∧
    (∀ i, i < generateFunnelData.length →
      stagePercentage i = toFixedQ 1 (funnelValue i / funnelValue 0 * 100)) ∧
    (∀ i, 0 < i → i < generateFunnelData.length →
      stageDropoff i =
        toFixedQ 1 ((funnelValue (i - 1) - funnelValue i) / funnelValue (i - 1) * 100)) := by
  refine ⟨rfl, ?_, rfl, ?_, fun i _ => rfl, fun i hi _ => ?_⟩
  · norm_num [conversionRate, toFixedQ, totalSessions, generateFunnelData, round_eq]
  · norm_num [refundRate, toFixedQ, totalRefunds, totalOrders, generateRefundData,
      generateChannelData, round_eq]
  · simp only [stageDropoff, hi, if_pos]

/-- Witness for C6 at the Add to Cart stage (index 2). -/
theorem spec_C6_witness :
    conversionRate = 27 / 10 ∧
    refundRate = 113 / 5 ∧
    stagePercentage 2 = toFixedQ 1 (funnelValue 2 / funnelValue 0 * 100) ∧
    stageDropoff 2 =
      toFixedQ 1 ((funnelValue 1 - funnelValue 2) / funnelValue 1 * 100) :=
  ⟨spec_C6_percentages.2.1, spec_C6_percentages.2.2.2.1,
   spec_C6_percentages.2.2.2.2.1 2 (by decide),
   spec_C6_percentages.2.2.2.2.2 2 (by decide) (by decide)⟩

/-- C3: refund rate is refunds over orders and the underlying ratio is
bounded: in the dashboard, refundRate is totalRefunds (sum of the
refund-reason counts) over totalOrders (sum of per-channel orders)
times 100 with the ratio in [0, 1], and in quality_metrics the
overall_refund_rate is a finite value in [0, 1] whenever the refunded
sum is nonnegative and does not exceed the orders sum. -/
theorem spec_C3_refund_rate_bounds (rows : List MasterRow)
    (h0 : 0 ≤ (rows.map (·.was_refunded)).sum)
    (h1 : (rows.map (·.was_refunded)).sum ≤ (rows.map (·.orders_in_session)).sum) :
    refundRate = toFixedQ 1 (totalRefunds / totalOrders * 100) ∧
    0 ≤ totalRefunds / totalOrders ∧ totalRefunds / totalOrders ≤ 1 ∧
    ∃ r : ℚ, (quality_metrics rows).overall_refund_rate = NpVal.fin r ∧
      0 ≤ r ∧ r ≤ 1 := by
  refine ⟨rfl, ?_, ?_, ?_⟩
  · norm_num [totalRefunds, totalOrders, generateRefundData, generateChannelData]
  · norm_num [totalRefunds, totalOrders, generateRefundData, generateChannelData]
  · by_cases hT : 0 < (rows.map (·.orders_in_session)).sum
    · refine ⟨(rows.map (·.was_refunded)).sum / (rows.map (·.orders_in_session)).sum,
        ?_, ?_, ?_⟩
      · simp [quality_metrics, hT, npdiv, ne_of_gt hT]
      · exact div_nonneg h0 (le_of_lt hT)
      · exact (div_le_one hT).mpr h1
    · exact ⟨0, by simp [quality_metrics, hT], le_refl 0, by norm_num⟩

/-- Witness for C3: a master table with one session holding two orders
of which one was refunded. -/
theorem spec_C3_witness :
    ∃ r : ℚ,
      (quality_metrics [⟨1, 2, 1⟩]).overall_refund_rate = NpVal.fin r ∧
      0 ≤ r ∧ r ≤ 1 :=
  (spec_C3_refund_rate_bounds [⟨1, 2, 1⟩] (by norm_num) (by norm_num)).2.2.2

/-- Sum of the counts produced by value_counts: the number of
non-missing entries of the column. -/
lemma sum_value_counts (l : List (Option String)) :
    ((value_counts l).map Prod.snd).sum = (l.filterMap id).length := by
  unfold value_counts
  rw [List.map_map]
  exact List.sum_map_count_dedup_eq_length (l.filterMap id)

/-- A column with no missing entry keeps its full length under
filterMap id. -/
lemma length_filterMap_id_of_isSome (l : List (Option String))
    (h : ∀ x ∈ l, x.isSome) : (l.filterMap id).length = l.length := by
  induction l with
  | nil => simp
  | cons a t ih =>
    cases a with
    | none => exact absurd (h none (List.mem_cons_self _ _)) (by simp)
    | some v =>
      have ht := ih fun x hx => h x (List.mem_cons_of_mem _ hx)
      simp [List.filterMap_cons, ht]

/-- Counterexample to C5 as stated: on an input table with a single
session whose device_type (and traffic_source) is missing, pandas
value_counts drops the missing key, so the sessions_by_device counts
sum to 0 while total_sessions is 1. -/
theorem spec_C5_counterexample :
    ¬ (((traffic_metrics [⟨none, none⟩]).sessions_by_device.map Prod.snd).sum =
        (traffic_metrics [⟨none, none⟩]).total_sessions) := by
  decide

/-- C5 (amended): for every input table in which the grouping column
has no missing entry, the per-group counts sum to the total record
count — sessions_by_channel sums to total_sessions when no
traffic_source is missing, sessions_by_device sums to total_sessions
when no device_type is missing — and in the dashboard the
refund-reason counts of generateRefundData sum to the displayed
totalRefunds unconditionally. -/
theorem spec_C5_group_counts_sum (rows : List SessionRow) :
    ((∀ r ∈ rows, r.traffic_source.isSome) →
      ((traffic_metrics rows).sessions_by_channel.map Prod.snd).sum =
        (traffic_metrics rows).total_sessions) ∧
    ((∀ r ∈ rows, r.device_type.isSome) →
      ((traffic_metrics rows).sessions_by_device.map Prod.snd).sum =
        (traffic_metrics rows).total_sessions) ∧
    (generateRefundData.map (·.count)).sum = totalRefunds := by
  refine ⟨fun hc => ?_, fun hd => ?_, rfl⟩
  · show ((value_counts (rows.map (·.traffic_source))).map Prod.snd).sum = rows.length
    rw [sum_value_counts, length_filterMap_id_of_isSome]
    · exact rows.length_map _
    · intro x hx
      obtain ⟨r, hr, rfl⟩ := List.mem_map.mp hx
      exact hc r hr
  · show ((value_counts (rows.map (·.device_type))).map Prod.snd).sum = rows.length
    rw [sum_value_counts, length_filterMap_id_of_isSome]
    · exact rows.length_map _
    · intro x hx
      obtain ⟨r, hr, rfl⟩ := List.mem_map.mp hx
      exact hd r hr

/-- Witness for the amended C5 on a two-row table whose traffic_source
column is fully present while one device_type is missing: the channel
breakdown still sums to total_sessions, under its own hypothesis
alone. -/
theorem spec_C5_witness :
    ((traffic_metrics [⟨some "Organic", none⟩,
        ⟨some "Social", some "Mobile"⟩]).sessions_by_channel.map Prod.snd).sum =
      (traffic_metrics [⟨some "Organic", none⟩,
        ⟨some "Social", some "Mobile"⟩]).total_sessions :=
  (spec_C5_group_counts_sum
    [⟨some "Organic", none⟩, ⟨some "Social", some "Mobile"⟩]).1 (by decide)

/-- C10: after clean_orders, every remaining order has a present,
strictly positive order_value; the order_value > 0 filter removes
zero-valued and non-numeric (missing) orders as well, not only the
negative-valued ones counted in the cleaning log. -/
theorem spec_C10_positive_order_values (df_orders : List OrderRow)
    (df_sessions : List SessionKeyRow) (o : OrderRow)
    (ho : o ∈ (clean_orders df_orders df_sessions).rows) :
    ∃ v : ℚ, o.order_value = some v ∧ 0 < v := by
  unfold clean_orders at ho
  simp only [List.mem_filter] at ho
  obtain ⟨-, hpos⟩ := ho
  cases hv : o.order_value with
  | none => rw [hv] at hpos; exact absurd hpos (by simp)
  | some v =>
    rw [hv] at hpos
    exact ⟨v, rfl, of_decide_eq_true hpos⟩

/-- Concrete orders table for the C10 witness: a zero-valued, a
missing-valued, a negative-valued and a positive-valued order, all
with valid ids and dates. -/
def demoOrders : List OrderRow :=
  [ ⟨some "o1", "s1", some 5, some 0⟩
  , ⟨some "o2", "s1", some 5, none⟩
  , ⟨some "o3", "s1", some 5, some (-7)⟩
  , ⟨some "o4", "s1", some 5, some 3⟩ ]

/-- Concrete sessions table for the C10 witness. -/
def demoSessions : List SessionKeyRow := [⟨"s1", some 0⟩]

/-- Witness for C10: only the positive-valued order survives, the
cleaning log counts a single negative order (not the zero-valued or
missing-valued ones that were also removed), and the surviving order
satisfies the invariant via the theorem. -/
theorem spec_C10_witness :
    (∃ v : ℚ, (⟨some "o4", "s1", some 5, some 3⟩ : OrderRow).order_value =
      some v ∧ 0 < v) ∧
    (clean_orders demoOrders demoSessions).rows =
      [⟨some "o4", "s1", some 5, some 3⟩] ∧
    (clean_orders demoOrders demoSessions).negative_orders = 1 :=
  ⟨spec_C10_positive_order_values demoOrders demoSessions _ (by decide),
   by decide, by decide⟩

/-- C7: after clean_refunds, every remaining refund row has a present
order_date satisfying refund_date >= order_date, and that order_date
comes from an order of the input orders table matching the refund on
order_id; merged rows violating the comparison (including those with
no matching order) are removed by the filter. -/
theorem spec_C7_refund_after_order (df_refunds : List RefundRow)
    (df_orders : List OrderRow) (m : MergedRefundRow)
    (hm : m ∈ clean_refunds df_refunds df_orders) :
    ∃ d : ℤ, m.order_date = some d ∧ d ≤ m.refund.refund_date ∧
      ∃ o ∈ df_orders, keyMatches m.refund.order_id o.order_id = true ∧
        o.order_date = some d := by
  unfold clean_refunds at hm
  rw [List.mem_filter] at hm
  obtain ⟨hmem, hge⟩ := hm
  cases hd : m.order_date with
  | none => simp [optGe, hd] at hge
  | some d =>
    simp only [optGe, hd] at hge
    refine ⟨d, rfl, of_decide_eq_true hge, ?_⟩
    unfold mergeRefundsOrders at hmem
    rw [List.mem_flatMap] at hmem
    obtain ⟨r, -, hr⟩ := hmem
    by_cases hempty : (df_orders.filter
        (fun o => keyMatches r.order_id o.order_id)).isEmpty
    · rw [if_pos hempty] at hr
      simp only [List.mem_singleton] at hr
      rw [hr] at hd
      exact absurd hd (by simp)
    · rw [if_neg hempty] at hr
      rw [List.mem_map] at hr
      obtain ⟨o, ho, rfl⟩ := hr
      rw [List.mem_filter] at ho
      exact ⟨o, ho.1, ho.2, hd⟩

/-- Concrete refunds table for the C7 witness: one refund before its
order, one after it, and one with no matching order. -/
def demoRefunds : List RefundRow :=
  [ ⟨"r1", some "o4", 3⟩
  , ⟨"r2", some "o4", 9⟩
  , ⟨"r3", some "zz", 9⟩ ]

/-- Witness for C7: on the demo tables only the refund dated after its
order survives, and it satisfies the invariant via the theorem. -/
theorem spec_C7_witness :
    (clean_refunds demoRefunds demoOrders =
      [⟨⟨"r2", some "o4", 9⟩, some 5⟩]) ∧
    ∃ d : ℤ, (⟨⟨"r2", some "o4", 9⟩, some 5⟩ : MergedRefundRow).order_date =
        some d ∧
      d ≤ (⟨⟨"r2", some "o4", 9⟩, some 5⟩ : MergedRefundRow).refund.refund_date ∧
      ∃ o ∈ demoOrders,
        keyMatches (⟨⟨"r2", some "o4", 9⟩, some 5⟩ :
          MergedRefundRow).refund.order_id o.order_id = true ∧
        o.order_date = some d :=
  ⟨by decide, spec_C7_refund_after_order demoRefunds demoOrders _ (by decide)⟩

end BearCart
